import Mathlib

/-!
# BrainGuard scoring engine — a shallow embedding

This file embeds the deterministic parts of the BrainGuard signal-analysis
and scoring engine in Lean 4 and settles a list of claims about them.

Machine floating-point numbers are modelled as rationals (`ℚ`); the decimal
literals appearing in the sources (0.4, 0.025, …) are taken at their exact
decimal value.  JavaScript's special values (`NaN`, `Infinity`), which arise
in the symmetry computation through division by zero, are modelled explicitly
by the type `JSVal`.  `Math.sqrt`, whose output is in general irrational, is
modelled relationally: a value `r` is the square root of `q` when `0 ≤ r`
and `r * r = q` (the predicate `IsRMSE` below).
-/

namespace BrainGuard

/-- `WeatherStatus` from `types.ts`: SUNNY = normal, CLOUDY = warning,
STORM = danger. -/
inductive WeatherStatus where
  | SUNNY
  | CLOUDY
  | STORM
deriving DecidableEq, Repr

/-- The three optional domain scores held in `UserHealthState`
(`visual`, `audio`, `touch`), reduced to the score field which is all
`generateHealthReport` reads. -/
structure UserHealthState where
  visual : Option ℚ
  audio : Option ℚ
  touch : Option ℚ

/-- The `validScores` array built by `generateHealthReport`: the defined
scores in the order visual, audio, touch. -/
def validScores (hs : UserHealthState) : List ℚ :=
  (match hs.visual with | some s => [s] | none => []) ++
  (match hs.audio with | some s => [s] | none => []) ++
  (match hs.touch with | some s => [s] | none => [])

/-- `arr.reduce((a, b) => a + b, 0)`. -/
def sumList (l : List ℚ) : ℚ := l.foldl (· + ·) 0

/-- `Math.min(...scores)` on a non-empty list (the source only evaluates it
after the `length === 0` early return; the `[]` case is a dead default). -/
def listMin : List ℚ → ℚ
  | [] => 0
  | a :: rest => rest.foldl min a

/-- `Math.round` on a finite value: round half toward positive infinity. -/
def jsRound (q : ℚ) : ℤ := ⌊q + 1 / 2⌋

/-- The external narrative service, seen from the engine: either the API key
is missing (demo mode), or the call succeeded and the parsed JSON carried the
given `status` field, or the call threw (network failure, empty response,
malformed JSON). -/
inductive AIOutcome where
  | demo
  | ok (statusField : String)
  | err
deriving DecidableEq, Repr

/-- The `criticalIssue` flag of `generateHealthReport`:
`lowestScore < 60`. -/
def criticalIssue (hs : UserHealthState) : Bool :=
  decide (listMin (validScores hs) < 60)

/-- The `status` component of `geminiService.generateHealthReport`
(the narrative text is not modelled).  Mirrors the source path by path:
no scores → SUNNY; demo mode → mock status; successful call → parsed
status with the STORM safety net; failed call → the CLOUDY fallback of the
`catch` block. -/
def generateHealthReport (hs : UserHealthState) (outcome : AIOutcome) :
    WeatherStatus :=
  let scores := validScores hs
  if scores.length = 0 then .SUNNY
  else
    let currentAvg := jsRound (sumList scores / scores.length)
    match outcome with
    | .demo =>
        if criticalIssue hs then .STORM
        else if currentAvg < 80 then .CLOUDY
        else .SUNNY
    | .ok statusField =>
        let status : WeatherStatus := .SUNNY
        let status := if statusField = "CLOUDY" then .CLOUDY else status
        let status := if statusField = "STORM" then .STORM else status
        if criticalIssue hs then .STORM else status
    | .err => .CLOUDY

/-! ## JavaScript numbers with special values

The facial-symmetry computation can divide zero by zero, producing `NaN`,
which then flows through `*` and `Math.floor` unchanged.  `JSVal` models a
JavaScript number as either a finite rational or one of the special
values. -/

/-- A JavaScript number: finite, `NaN`, `Infinity` or `-Infinity`. -/
inductive JSVal where
  | num (q : ℚ)
  | nan
  | inf
  | ninf
deriving DecidableEq, Repr

namespace JSVal

/-- JavaScript `+` (the cases reachable from finite inputs). -/
def add : JSVal → JSVal → JSVal
  | num a, num b => num (a + b)
  | nan, _ => nan
  | _, nan => nan
  | inf, ninf => nan
  | ninf, inf => nan
  | inf, _ => inf
  | _, inf => inf
  | ninf, _ => ninf
  | _, ninf => ninf

/-- JavaScript `*`. -/
def mul : JSVal → JSVal → JSVal
  | num a, num b => num (a * b)
  | nan, _ => nan
  | _, nan => nan
  | num a, inf => if a = 0 then nan else if 0 < a then inf else ninf
  | inf, num a => if a = 0 then nan else if 0 < a then inf else ninf
  | num a, ninf => if a = 0 then nan else if 0 < a then ninf else inf
  | ninf, num a => if a = 0 then nan else if 0 < a then ninf else inf
  | inf, inf => inf
  | ninf, ninf => inf
  | inf, ninf => ninf
  | ninf, inf => ninf

/-- JavaScript `/` on two finite values: `0 / 0` is `NaN`, `a / 0` with
`a ≠ 0` is a signed infinity. -/
def divQ (a b : ℚ) : JSVal :=
  if b = 0 then (if a = 0 then nan else if 0 < a then inf else ninf)
  else num (a / b)

/-- JavaScript `/` with a finite divisor. -/
def divByQ (v : JSVal) (b : ℚ) : JSVal :=
  match v with
  | num a => divQ a b
  | nan => nan
  | inf => if b = 0 then (if 0 ≤ b then inf else ninf) else if 0 < b then inf else ninf
  | ninf => if b = 0 then (if 0 ≤ b then ninf else inf) else if 0 < b then ninf else inf

/-- `Math.floor`: the identity on non-finite values. -/
def floor : JSVal → JSVal
  | num q => num (⌊q⌋ : ℤ)
  | nan => nan
  | inf => inf
  | ninf => ninf

end JSVal

/-! ## Facial Symmetry Analyzer (`MirrorModule`) -/

/-- A MediaPipe face-mesh landmark (normalized coordinates). -/
structure Landmark where
  x : ℚ
  y : ℚ
  z : ℚ
deriving DecidableEq, Repr

/-- `getHeight` inside `calculateSymmetry`: bounding-box height of a
landmark cluster, folding with the source's initial values
`minY = 1, maxY = 0`. -/
def getHeight (pts : List Landmark) : ℚ :=
  let mm := pts.foldl
    (fun (mm : ℚ × ℚ) p =>
      (if p.y < mm.1 then p.y else mm.1, if p.y > mm.2 then p.y else mm.2))
    (1, 0)
  mm.2 - mm.1

/-- `calculateSymmetry`:
`Math.floor(Math.min(lH, rH) / Math.max(lH, rH) * 100)`, with zero heights
making the division produce `NaN`. -/
def calculateSymmetry (leftPoints rightPoints : List Landmark) : JSVal :=
  let lH := getHeight leftPoints
  let rH := getHeight rightPoints
  JSVal.floor (JSVal.mul (JSVal.divQ (min lH rH) (max lH rH)) (.num 100))

/-- The mouth-symmetry expression in `onResults`:
`Math.floor((Math.min(lDist, rDist) / Math.max(lDist, rDist)) * 100)`,
taken on the two already-computed corner-to-center distances (which are
non-negative; both are `0` exactly when each corner coincides with the
mouth center). -/
def mouthSymOfDists (lDist rDist : ℚ) : JSVal :=
  JSVal.floor (JSVal.mul (JSVal.divQ (min lDist rDist) (max lDist rDist)) (.num 100))

/-- The per-metric sample windows `samplesRef.current`. -/
structure ScanWindow where
  eye : List JSVal
  mouth : List JSVal
  brow : List JSVal
deriving DecidableEq, Repr

/-- The sample-admission step at the end of `onResults`: the three symmetry
values are appended to the windows iff a scan is active and the pose status
is `OK`; otherwise the frame is dropped. -/
def admitSamples (w : ScanWindow) (isScanning poseOK : Bool)
    (eyeSym browSym mouthSym : JSVal) : ScanWindow :=
  if isScanning && poseOK then
    { eye := w.eye ++ [eyeSym], mouth := w.mouth ++ [mouthSym],
      brow := w.brow ++ [browSym] }
  else w

/-! ## Domain results and calibration mode -/

/-- `'TEST' | 'CALIBRATION'` mode of each module. -/
inductive Mode where
  | TEST
  | CALIBRATION
deriving DecidableEq, Repr

/-- The `raw` calibration payload a module may attach to its result.  Only
the visual module ever builds one (`{ eyeSym, mouthSym, browSym }`). -/
inductive RawPayload where
  | visual (eyeSym mouthSym browSym : JSVal)
deriving DecidableEq, Repr

/-- `MetricResult` from `types.ts`, reduced to the fields the claims are
about (the `details` string and the timestamp are narrative glue). -/
structure MetricResult where
  score : JSVal
  raw : Option RawPayload
deriving DecidableEq, Repr

/-- A module's completion: the emitted `MetricResult` and whether a history
record was persisted through `saveRecord`. -/
structure EmitResult where
  result : MetricResult
  savedRecord : Bool
deriving DecidableEq, Repr

/-- `calcAvg` inside `finishScan`:
`arr.length > 0 ? arr.reduce((a,b)=>a+b,0)/arr.length : 100`. -/
def calcAvg (arr : List JSVal) : JSVal :=
  if arr.length > 0 then
    JSVal.divByQ (arr.foldl JSVal.add (.num 0)) arr.length
  else .num 100

/-- `finishScan` of `MirrorModule`, on the sample windows accumulated during
the scan.  In calibration mode it emits a fixed score of 100 together with
the raw per-metric means and returns before `saveRecord`; in test mode it
computes `floor(0.4·eye + 0.4·mouth + 0.2·brow)`, persists a record and
emits the score (the `details` strings and the webcam snapshot are not
modelled). -/
def finishScan (mode : Mode) (w : ScanWindow) : EmitResult :=
  let eyeScore := calcAvg w.eye
  let browScore := calcAvg w.brow
  let mouthScore := calcAvg w.mouth
  let finalScore := JSVal.floor
    (JSVal.add (JSVal.add (JSVal.mul eyeScore (.num 0.4))
      (JSVal.mul mouthScore (.num 0.4))) (JSVal.mul browScore (.num 0.2)))
  if mode = .CALIBRATION then
    { result := { score := .num 100,
                  raw := some (.visual eyeScore mouthScore browScore) },
      savedRecord := false }
  else
    { result := { score := finalScore, raw := none }, savedRecord := true }

/-! ## Voice Acoustic Analyzer (`VoiceModule`) -/

/-- The `issues.push` tag for `jitter > 0.025` ("pitch instability"). -/
def pitchInstabilityTag : String := "声调抖动"

/-- The `issues.push` tag for `shimmer > 0.1` ("breath instability"). -/
def breathInstabilityTag : String := "气息不稳"

/-- The source loop
`for (i = 1; i < v.length; i++) { dSum += |v[i] - v[i-1]|; tSum += v[i] }`,
run with `prev` the previous element: returns `(dSum, tSum)`. -/
def diffTailSums : ℚ → List ℚ → ℚ × ℚ
  | _, [] => (0, 0)
  | prev, v :: rest =>
      let s := diffTailSums v rest
      (|v - prev| + s.1, v + s.2)

/-- The jitter computation of `finishRecording`:
`(jitterSum / (n - 1)) / (pitchSum / n)` where the loop sums `pitches[1..]`
into `pitchSum` (the first sample is *not* included) yet divides by the
full length `n`. -/
def jitterOf (pitches : List ℚ) : ℚ :=
  match pitches with
  | [] => 0
  | p0 :: rest =>
      let s := diffTailSums p0 rest
      let avgPitch := s.2 / pitches.length
      (s.1 / ((pitches.length : ℚ) - 1)) / avgPitch

/-- The shimmer computation of `finishRecording`, identical in shape to the
jitter computation but over the amplitude (RMS) samples. -/
def shimmerOf (amps : List ℚ) : ℚ :=
  match amps with
  | [] => 0
  | a0 :: rest =>
      let s := diffTailSums a0 rest
      let avgAmp := s.2 / amps.length
      (s.1 / ((amps.length : ℚ) - 1)) / avgAmp

/-- The scoring block of `finishRecording`: start from 100, subtract 30
(tagging) or 10 for jitter, then 30 (tagging) or 10 for shimmer, then clamp
at 0 with `Math.max`. -/
def vowelScore (jitter shimmer : ℚ) : ℚ × List String :=
  let score : ℚ := 100
  let issues : List String := []
  let si :=
    if jitter > 0.025 then (score - 30, issues ++ [pitchInstabilityTag])
    else if jitter > 0.015 then (score - 10, issues)
    else (score, issues)
  let si :=
    if shimmer > 0.1 then (si.1 - 30, si.2 ++ [breathInstabilityTag])
    else if shimmer > 0.06 then (si.1 - 10, si.2)
    else si
  (max 0 si.1, si.2)

/-- `finishRecording` of the vowel sub-test: with fewer than 15 collected
pitch samples it fails softly ("声音太短，请重试") and produces nothing;
otherwise it reduces the buffers to jitter and shimmer and scores them. -/
def finishRecording (pitches amps : List ℚ) : Option (ℚ × List String) :=
  if pitches.length < 15 then none
  else some (vowelScore (jitterOf pitches) (shimmerOf amps))

/-- `handleReadingFinish` of `VoiceModule`: weighted total
`floor(0.4·vowel + 0.6·reading)`, capped at 65 when the vowel sub-test
reported any issue; in calibration mode it emits a fixed 100 with no raw
payload and returns before `saveRecord`. -/
def handleReadingFinish (mode : Mode) (vowelScore : ℚ)
    (vowelIssues : List String) (readingScore : ℚ) : EmitResult :=
  let totalScore : ℤ := ⌊vowelScore * 0.4 + readingScore * 0.6⌋
  let totalScore := if vowelIssues.length > 0 then min totalScore 65 else totalScore
  if mode = .CALIBRATION then
    { result := { score := .num 100, raw := none }, savedRecord := false }
  else
    { result := { score := .num totalScore, raw := none }, savedRecord := true }

/-! ## Motor Control Analyzer (`TouchModule`) -/

/-- The `issues.push` tag for a detected tremor ("resting tremor"). -/
def restingTremorTag : String := "静止性震颤"

/-- The composite of `analyze` in `TouchModule`:
`floor(0.5·coordination + 0.5·stability)`, then `Math.min(·, 59)` when the
stability sub-test reported the resting-tremor issue. -/
def touchTotalScore (coordinationScore stabilityScore : ℚ)
    (issues : List String) : ℤ :=
  let totalScore : ℤ := ⌊coordinationScore * 0.5 + stabilityScore * 0.5⌋
  if issues.contains restingTremorTag then min totalScore 59 else totalScore

/-- `analyze` of `TouchModule`: emits the composite (calibration mode again
short-circuits to 100, no raw payload, before `saveRecord`). -/
def analyze (mode : Mode) (coordinationScore stabilityScore : ℚ)
    (issues : List String) : EmitResult :=
  let totalScore := touchTotalScore coordinationScore stabilityScore issues
  if mode = .CALIBRATION then
    { result := { score := .num 100, raw := none }, savedRecord := false }
  else
    { result := { score := .num totalScore, raw := none }, savedRecord := true }

/-! ### Spiral sub-test (`SpiralTest`)

A pointer event enters the session logic only through its distance from the
canvas center (`Math.sqrt(dx²+dy²)`) and through the radial deviation
`calculateError(x, y)` computed from it, so an event is represented by that
pair of values.  The score computed in `finishTest` applies `Math.sqrt` to
the mean of squared errors; that square root is treated relationally via
`IsRMSE`. -/

/-- `MAX_RADIUS` (px). -/
def MAX_RADIUS : ℚ := 140

/-- `START_ZONE_RADIUS` (px): a capture must begin within this distance of
the center. -/
def START_ZONE_RADIUS : ℚ := 35

/-- A pointer event of the spiral capture, given by its distance from the
center and by the radial deviation the source computes for it. -/
structure SpiralEvent where
  dist : ℚ
  err : ℚ
deriving DecidableEq, Repr

/-- The mutable session state of `SpiralTest`: `isDrawing`, the accumulated
point and per-point error buffers, and the displayed progress. -/
structure SpiralState where
  isDrawing : Bool
  points : List SpiralEvent
  errors : List ℚ
  progress : ℚ
deriving DecidableEq, Repr

/-- The state on mount: not drawing, empty buffers, progress 0. -/
def initialSpiralState : SpiralState :=
  { isDrawing := false, points := [], errors := [], progress := 0 }

/-- The emission of `finishTest`: the error buffer and the recorded point
count, from which the score is computed. -/
structure SpiralDone where
  errors : List ℚ
  nPoints : ℕ
deriving DecidableEq, Repr

/-- `handleStart`: refuse (leaving the state unchanged, with a
"start at center" prompt) when the pointer is farther than
`START_ZONE_RADIUS` from the center; otherwise begin drawing with the event
as sole point and an empty error buffer. -/
def handleStart (st : SpiralState) (e : SpiralEvent) : SpiralState :=
  if e.dist > START_ZONE_RADIUS then st
  else { st with isDrawing := true, points := [e], errors := [] }

/-- The tail of `finishTest` that manipulates the session: stop drawing and,
unless the error buffer is empty, emit the buffered data for scoring. -/
def finishTestEmit (st : SpiralState) : SpiralState × Option SpiralDone :=
  let st := { st with isDrawing := false }
  if st.errors.length = 0 then (st, none)
  else (st, some { errors := st.errors, nPoints := st.points.length })

/-- `handleMove`: ignored unless drawing; otherwise append the point and its
error, update progress to `min(100, dist/MAX_RADIUS·100)`, and call
`finishTest` once the distance from center reaches `MAX_RADIUS − 10`. -/
def handleMove (st : SpiralState) (e : SpiralEvent) :
    SpiralState × Option SpiralDone :=
  if !st.isDrawing then (st, none)
  else
    let st := { st with
      points := st.points ++ [e],
      errors := st.errors ++ [e.err],
      progress := min 100 (e.dist / MAX_RADIUS * 100) }
    if e.dist ≥ MAX_RADIUS - 10 then finishTestEmit st
    else (st, none)

/-- `handleEnd` (pointer lift / leave): when a drawing is in flight, abort
it — clear both buffers, reset progress to 0 and stop drawing; emit
nothing. -/
def handleEnd (st : SpiralState) : SpiralState :=
  if st.isDrawing then
    { isDrawing := false, points := [], errors := [], progress := 0 }
  else st

/-- Run a sequence of move events, collecting every emission of
`finishTest`. -/
def runMoves (st : SpiralState) : List SpiralEvent →
    SpiralState × List SpiralDone
  | [] => (st, [])
  | e :: rest =>
      let (st', out) := handleMove st e
      let (stFinal, outs) := runMoves st' rest
      (stFinal, (match out with | some d => [d] | none => []) ++ outs)

/-- `errors.reduce((a, b) => a + b*b, 0)`. -/
def sumSquares (l : List ℚ) : ℚ := l.foldl (fun a b => a + b * b) 0

/-- `r` is the value of `Math.sqrt(sumSquares / errors.length)`: the
non-negative square root of the mean squared error. -/
def IsRMSE (errors : List ℚ) (r : ℚ) : Prop :=
  0 ≤ r ∧ r * r = sumSquares errors / errors.length

/-- The scoring tail of `finishTest`, as a function of the rmse value:
`score = max(0, 100 − rmse·2)`, then `score = min(score, 40)` when fewer
than 30 points were recorded, finally `Math.floor(score)`. -/
def finishTestScore (rmse : ℚ) (nPoints : ℕ) : ℤ :=
  let score := max 0 (100 - rmse * 2)
  let score := if nPoints < 30 then min score 40 else score
  ⌊score⌋

/-- The spiral score as the specification words it: `max(0, 100 − 2·RMSE)`,
additionally capped at 40 whenever fewer than 30 points were recorded, and
rounded down to an integer. -/
def spiralScoreSpec (rmse : ℚ) (nPoints : ℕ) : ℤ :=
  let base : ℤ := ⌊max 0 (100 - 2 * rmse)⌋
  if nPoints < 30 then min base 40 else base

/-! ## Specification-side definitions

These follow the specification's words (not the source) and exist to be
compared with the source-derived definitions above. -/

/-- Sum of absolute consecutive differences `Σ |v[i] − v[i−1]|`. -/
def sumAbsDiffs : List ℚ → ℚ
  | [] => 0
  | [_] => 0
  | a :: b :: rest => |b - a| + sumAbsDiffs (b :: rest)

/-- Sum of all elements except the first. -/
def sumTail : List ℚ → ℚ
  | [] => 0
  | _ :: rest => sumList rest

/-- Jitter as the specification words it:
`mean(|Δconsecutive pitch|) / mean(pitch)`, the divisor being the mean of
*all* pitch samples. -/
def jitterMeanBased (pitches : List ℚ) : ℚ :=
  (sumAbsDiffs pitches / ((pitches.length : ℚ) - 1)) /
    (sumList pitches / pitches.length)

/-- The jitter deduction as the specification words it: 30 points if
`jitter > 0.025`, else 10 points if `jitter > 0.015`, else none. -/
def jitterDeduction (jitter : ℚ) : ℚ :=
  if jitter > 0.025 then 30 else if jitter > 0.015 then 10 else 0

/-- The shimmer deduction as the specification words it: 30 points if
`shimmer > 0.10`, else 10 points if `shimmer > 0.06`, else none. -/
def shimmerDeduction (shimmer : ℚ) : ℚ :=
  if shimmer > 0.1 then 30 else if shimmer > 0.06 then 10 else 0

/-! ## Helper lemmas -/

theorem foldl_min_le (l : List ℚ) (a : ℚ) :
    l.foldl min a ≤ a ∧ ∀ q ∈ l, l.foldl min a ≤ q := by
  induction l generalizing a with
  | nil => exact ⟨le_refl a, by simp⟩
  | cons b t ih =>
    refine ⟨le_trans (ih (min a b)).1 (min_le_left a b), ?_⟩
    intro q hq
    rcases List.mem_cons.mp hq with rfl | hq'
    · exact le_trans (ih (min a q)).1 (min_le_right a q)
    · exact (ih (min a b)).2 q hq'

theorem listMin_le_of_mem {q : ℚ} {l : List ℚ} (h : q ∈ l) : listMin l ≤ q := by
  cases l with
  | nil => cases h
  | cons b t =>
    rcases List.mem_cons.mp h with rfl | h'
    · exact (foldl_min_le t q).1
    · exact (foldl_min_le t b).2 q h'

theorem criticalIssue_of_mem_low {hs : UserHealthState} {q : ℚ}
    (hmem : q ∈ validScores hs) (hlt : q < 60) : criticalIssue hs = true := by
  unfold criticalIssue
  simp only [decide_eq_true_eq]
  exact lt_of_le_of_lt (listMin_le_of_mem hmem) hlt

theorem storm_of_mem_low {hs : UserHealthState} {q : ℚ} {outcome : AIOutcome}
    (hmem : q ∈ validScores hs) (hlt : q < 60) (hne : outcome ≠ .err) :
    generateHealthReport hs outcome = .STORM := by
  have hcrit := criticalIssue_of_mem_low hmem hlt
  have hlen : (validScores hs).length ≠ 0 := by
    simpa [List.length_eq_zero] using List.ne_nil_of_mem hmem
  unfold generateHealthReport
  cases outcome with
  | demo => simp [hlen, hcrit]
  | ok s => simp [hlen, hcrit]
  | err => exact absurd rfl hne

/-! ## Claim C1 -/

/-- **C1, counterexample**: a health state whose only available score is 50
(< 60) for which the aggregator does *not* return STORM when the narrative
service call fails: the `catch` block returns the CLOUDY fallback
unconditionally, bypassing the safety net. -/
theorem C1_service_failure_counterexample :
    (50 : ℚ) ∈ validScores ⟨some 50, none, none⟩ ∧ (50 : ℚ) < 60 ∧
    generateHealthReport ⟨some 50, none, none⟩ .err = .CLOUDY ∧
    WeatherStatus.CLOUDY ≠ WeatherStatus.STORM := by
  refine ⟨by decide, by decide, by decide, by decide⟩

/-- **C1, amended**: if any available domain score is below 60, the overall
status is STORM on the demo-mode path and on every path where the narrative
service returns a response — whatever status string it reports; on the path
where the service call fails, however, the status is the CLOUDY fallback
regardless of the scores. -/
theorem C1_weakest_link_vs_narrative (hs : UserHealthState)
    (outcome : AIOutcome) (q : ℚ) (hmem : q ∈ validScores hs) (hlt : q < 60) :
    (outcome ≠ .err → generateHealthReport hs outcome = .STORM) ∧
    (outcome = .err → generateHealthReport hs outcome = .CLOUDY) := by
  constructor
  · exact storm_of_mem_low hmem hlt
  · rintro rfl
    have hlen : (validScores hs).length ≠ 0 := by
      simpa [List.length_eq_zero] using List.ne_nil_of_mem hmem
    unfold generateHealthReport
    simp [hlen]

theorem C1_weakest_link_vs_narrative_witness :
    generateHealthReport ⟨some 50, none, none⟩ .demo = .STORM ∧
    generateHealthReport ⟨some 50, none, none⟩ (.ok "SUNNY") = .STORM :=
  ⟨(C1_weakest_link_vs_narrative ⟨some 50, none, none⟩ .demo 50 (by decide)
      (by decide)).1 (by decide),
   (C1_weakest_link_vs_narrative ⟨some 50, none, none⟩ (.ok "SUNNY") 50
      (by decide) (by decide)).1 (by decide)⟩

/-! ## Claim C2 -/

/-- **C2, counterexample**: in calibration mode the audio and touch domains
emit a result whose `raw` field is absent — the claim that every domain
returns a non-empty raw payload fails for them. -/
theorem C2_calibration_no_raw_counterexample :
    (handleReadingFinish .CALIBRATION 100 [] 100).result.raw = none ∧
    (analyze .CALIBRATION 100 100 []).result.raw = none := by
  refine ⟨by decide, by decide⟩

/-- **C2, amended**: in calibration mode every domain completes with a fixed
score of 100, no issue set, and no persisted record; the visual domain
returns the raw per-metric means as its calibration payload, while the
audio and touch domains return no raw payload at all. -/
theorem C2_calibration_behavior (w : ScanWindow) (v r c s : ℚ)
    (vowelIssues touchIssues : List String) :
    finishScan .CALIBRATION w =
      { result := { score := .num 100,
                    raw := some (.visual (calcAvg w.eye) (calcAvg w.mouth)
                      (calcAvg w.brow)) },
        savedRecord := false } ∧
    handleReadingFinish .CALIBRATION v vowelIssues r =
      { result := { score := .num 100, raw := none }, savedRecord := false } ∧
    analyze .CALIBRATION c s touchIssues =
      { result := { score := .num 100, raw := none }, savedRecord := false } := by
  refine ⟨rfl, rfl, rfl⟩

theorem C2_calibration_behavior_witness :
    finishScan .CALIBRATION ⟨[], [], []⟩ =
      { result := { score := .num 100,
                    raw := some (.visual (calcAvg []) (calcAvg []) (calcAvg [])) },
        savedRecord := false } ∧
    handleReadingFinish .CALIBRATION 80 [] 90 =
      { result := { score := .num 100, raw := none }, savedRecord := false } ∧
    analyze .CALIBRATION 80 90 [] =
      { result := { score := .num 100, raw := none }, savedRecord := false } :=
  C2_calibration_behavior ⟨[], [], []⟩ 80 90 80 90 [] []

/-! ## Claim C3 -/

/-- **C3, counterexample**: with an empty sample window, `finishScan` in
test mode does not fail softly: it persists a record and emits score 100
(the empty-list branch of `calcAvg` substitutes 100 for each mean). -/
theorem C3_empty_window_counterexample :
    (finishScan .TEST ⟨[], [], []⟩).savedRecord = true ∧
    (finishScan .TEST ⟨[], [], []⟩).result.score = .num 100 := by
  refine ⟨rfl, ?_⟩
  simp only [finishScan, calcAvg, List.length_nil, gt_iff_lt, lt_self_iff_false,
    if_false, JSVal.mul, JSVal.add, JSVal.floor, reduceIte]
  norm_num
  rfl

/-- **C3, amended**: if the capture window contains fewer than 1 admitted
symmetry sample when the session finishes, the sub-test does not fail: each
empty sample list's mean defaults to 100, a score of 100 is emitted, and a
record is persisted — no retry prompt occurs. -/
theorem C3_empty_window_emits_100 (w : ScanWindow) (he : w.eye = [])
    (hm : w.mouth = []) (hb : w.brow = []) :
    finishScan .TEST w =
      { result := { score := .num 100, raw := none }, savedRecord := true } := by
  obtain ⟨e, m, b⟩ := w
  simp only at he hm hb
  subst he hm hb
  simp only [finishScan, calcAvg, List.length_nil, gt_iff_lt, lt_self_iff_false,
    if_false, JSVal.mul, JSVal.add, JSVal.floor, reduceIte]
  norm_num
  decide

theorem C3_empty_window_emits_100_witness :
    finishScan .TEST ⟨[], [], []⟩ =
      { result := { score := .num 100, raw := none }, savedRecord := true } :=
  C3_empty_window_emits_100 ⟨[], [], []⟩ rfl rfl rfl

/-! ## Claim C4 -/

/-- **C4 (claim correct, code wrong)**: for left/right landmark clusters
whose bounding-box heights are both zero, `calculateSymmetry` divides 0 by 0;
the resulting `NaN` flows through `* 100` and `Math.floor` unchanged and is
then appended to the scoring window by `onResults` exactly like a numeric
sample — no error is raised and the undefined sample *is* admitted,
contradicting the invariant that zero-division be treated as an error. -/
theorem C4_nan_sample_admitted :
    getHeight [⟨0, 1/2, 0⟩, ⟨1/10, 1/2, 0⟩] = 0 ∧
    calculateSymmetry [⟨0, 1/2, 0⟩, ⟨1/10, 1/2, 0⟩]
      [⟨9/10, 1/2, 0⟩, ⟨1, 1/2, 0⟩] = .nan ∧
    mouthSymOfDists 0 0 = .nan ∧
    admitSamples ⟨[], [], []⟩ true true .nan .nan .nan =
      ⟨[.nan], [.nan], [.nan]⟩ := by
  refine ⟨?_, ?_, ?_, rfl⟩
  · simp only [getHeight, List.foldl]
    norm_num
  · simp only [calculateSymmetry, getHeight, List.foldl, JSVal.divQ]
    norm_num [JSVal.mul, JSVal.floor]
  · simp only [mouthSymOfDists, JSVal.divQ]
    norm_num [JSVal.mul, JSVal.floor]

/-! ## Claim C5 -/

theorem foldl_add_shift (l : List ℚ) (a : ℚ) :
    l.foldl (· + ·) a = a + l.foldl (· + ·) 0 := by
  induction l generalizing a with
  | nil => simp
  | cons b t ih =>
    simp only [List.foldl_cons]
    rw [ih (a + b), ih (0 + b)]
    ring

theorem sumList_cons (a : ℚ) (l : List ℚ) :
    sumList (a :: l) = a + sumList l := by
  simp only [sumList, List.foldl_cons]
  rw [foldl_add_shift l (0 + a)]
  ring

theorem diffTailSums_eq (rest : List ℚ) (p : ℚ) :
    diffTailSums p rest = (sumAbsDiffs (p :: rest), sumList rest) := by
  induction rest generalizing p with
  | nil => simp [diffTailSums, sumAbsDiffs, sumList]
  | cons v t ih =>
    simp only [diffTailSums, ih v, sumAbsDiffs, sumList_cons]

theorem jitterOf_eq (pitches : List ℚ) :
    jitterOf pitches =
      (sumAbsDiffs pitches / ((pitches.length : ℚ) - 1)) /
        (sumTail pitches / pitches.length) := by
  cases pitches with
  | nil => simp [jitterOf, sumAbsDiffs, sumTail]
  | cons p rest => simp [jitterOf, diffTailSums_eq, sumTail]

theorem shimmerOf_eq (amps : List ℚ) :
    shimmerOf amps =
      (sumAbsDiffs amps / ((amps.length : ℚ) - 1)) /
        (sumTail amps / amps.length) := by
  cases amps with
  | nil => simp [shimmerOf, sumAbsDiffs, sumTail]
  | cons a rest => simp [shimmerOf, diffTailSums_eq, sumTail]

/-- A 15-sample pitch sequence on which the source's jitter divisor differs
from the mean of the samples. -/
def pitchesCx : List ℚ :=
  [200, 100, 100, 100, 100, 100, 100, 100, 100, 100, 100, 100, 100, 100, 100]

/-- **C5, counterexample**: on `pitchesCx` (15 samples, so the reduction
runs) the source divides by `(sum of pitches[1..]) / 15 = 1400/15`, not by
the mean `1600/15` — the loop accumulating `pitchSum` starts at index 1 and
never adds the first sample — so the computed jitter `15/196` differs from
the mean-based jitter `15/224` of the claim. -/
theorem C5_jitter_divisor_counterexample :
    pitchesCx.length = 15 ∧
    jitterOf pitchesCx = 15 / 196 ∧
    jitterMeanBased pitchesCx = 15 / 224 ∧
    jitterOf pitchesCx ≠ jitterMeanBased pitchesCx := by
  refine ⟨by norm_num [pitchesCx], ?_, ?_, ?_⟩
  · norm_num [pitchesCx, jitterOf, diffTailSums]
  · norm_num [pitchesCx, jitterMeanBased, sumAbsDiffs, sumList, List.foldl]
  · norm_num [pitchesCx, jitterOf, diffTailSums, jitterMeanBased, sumAbsDiffs,
      sumList, List.foldl]

/-- **C5, amended**: for at least 15 collected pitch samples, the vowel
reduction computes jitter as `mean(|Δconsecutive pitch|)` divided by
`(sum of the pitch samples excluding the first) / count`, and shimmer as
`mean(|Δconsecutive amplitude|)` divided by
`(sum of the amplitude samples excluding the first) / count`. -/
theorem C5_reduction_formulas (pitches amps : List ℚ)
    (hp : 15 ≤ pitches.length) :
    finishRecording pitches amps =
      some (vowelScore (jitterOf pitches) (shimmerOf amps)) ∧
    jitterOf pitches =
      (sumAbsDiffs pitches / ((pitches.length : ℚ) - 1)) /
        (sumTail pitches / pitches.length) ∧
    shimmerOf amps =
      (sumAbsDiffs amps / ((amps.length : ℚ) - 1)) /
        (sumTail amps / amps.length) := by
  refine ⟨?_, jitterOf_eq pitches, shimmerOf_eq amps⟩
  simp [finishRecording, Nat.not_lt.mpr hp]

theorem C5_reduction_formulas_witness :
    finishRecording pitchesCx pitchesCx =
      some (vowelScore (jitterOf pitchesCx) (shimmerOf pitchesCx)) :=
  (C5_reduction_formulas pitchesCx pitchesCx (by norm_num [pitchesCx])).1

/-! ## Claim C6 -/

/-- **C6**: the vowel sub-test score is 100 minus 30 if jitter > 0.025
(else minus 10 if jitter > 0.015), minus 30 if shimmer > 0.10 (else minus
10 if shimmer > 0.06), floored at 0; the pitch-instability tag is emitted
exactly when the jitter 30-point penalty fires and the breath-instability
tag exactly when the shimmer 30-point penalty fires; jitter 0.024 incurs
exactly a 10-point deduction and jitter 0.026 exactly 30. -/
theorem C6_vowel_scoring (j s : ℚ) :
    vowelScore j s =
      (max 0 (100 - jitterDeduction j - shimmerDeduction s),
       (if j > 0.025 then [pitchInstabilityTag] else []) ++
       (if s > 0.1 then [breathInstabilityTag] else [])) ∧
    (pitchInstabilityTag ∈ (vowelScore j s).2 ↔ j > 0.025) ∧
    (breathInstabilityTag ∈ (vowelScore j s).2 ↔ s > 0.1) ∧
    jitterDeduction 0.024 = 10 ∧ jitterDeduction 0.026 = 30 := by
  have htag : pitchInstabilityTag ≠ breathInstabilityTag := by decide
  refine ⟨?_, ?_, ?_, by norm_num [jitterDeduction], by norm_num [jitterDeduction]⟩
  · simp only [vowelScore, jitterDeduction, shimmerDeduction]
    split_ifs <;> simp
  · simp only [vowelScore]
    split_ifs <;> simp_all
  · simp only [vowelScore]
    split_ifs <;> simp_all [Ne.symm htag]

theorem C6_vowel_scoring_witness :
    (vowelScore 0.024 0).1 = 90 ∧ (vowelScore 0.026 0).1 = 70 := by
  have h1 := (C6_vowel_scoring 0.024 0).1
  have h2 := (C6_vowel_scoring 0.026 0).1
  rw [h1, h2]
  norm_num [jitterDeduction, shimmerDeduction]

/-! ## Claim C7 -/

theorem floor_min_intCast (x : ℚ) (m : ℤ) : ⌊min x (m : ℚ)⌋ = min ⌊x⌋ m := by
  rcases le_total x (m : ℚ) with h | h
  · have hf : ⌊x⌋ ≤ m := by
      have := Int.floor_le_floor h
      rwa [Int.floor_intCast] at this
    rw [min_eq_left h, min_eq_left hf]
  · have hf : m ≤ ⌊x⌋ := Int.le_floor.mpr h
    rw [min_eq_right h, min_eq_right hf, Int.floor_intCast]

/-- **C7**: for a non-empty error buffer with root-mean-square error `r`,
the spiral score computed by `finishTest` — `max(0, 100 − rmse·2)`, capped
via `Math.min(·, 40)` when fewer than 30 points were recorded, then
`Math.floor` — equals the claim's
`max(0, 100 − 2·RMSE)` capped at 40 iff fewer than 30 points, rounded down
to an integer. -/
theorem C7_spiral_score (errors : List ℚ) (nPoints : ℕ) (r : ℚ)
    (_hne : errors ≠ []) (_hr : IsRMSE errors r) :
    finishTestScore r nPoints = spiralScoreSpec r nPoints := by
  simp only [finishTestScore, spiralScoreSpec, mul_comm r 2]
  by_cases h : nPoints < 30
  · simp only [h, if_true]
    have := floor_min_intCast (max 0 (100 - 2 * r)) 40
    simpa using this
  · simp [h]

theorem C7_spiral_score_witness :
    List.length [(5 : ℚ), 5, 5, 5] = 4 ∧ IsRMSE [(5 : ℚ), 5, 5, 5] 5 ∧
    finishTestScore 5 50 = spiralScoreSpec 5 50 ∧ finishTestScore 5 50 = 90 := by
  have hr : IsRMSE [(5 : ℚ), 5, 5, 5] 5 := by
    constructor <;> norm_num [sumSquares, List.foldl]
  refine ⟨by norm_num, hr, C7_spiral_score [5, 5, 5, 5] 50 5 (by simp) hr, ?_⟩
  norm_num [finishTestScore]

/-! ## Claim C8 -/

/-- **C8**: for left/right clusters both of positive measured height,
`calculateSymmetry` returns a finite value, namely
`⌊min(lH,rH)/max(lH,rH)·100⌋`, which lies in [0, 100] and equals 100 iff
the two heights are exactly equal. -/
theorem C8_symmetry_bounds (lPts rPts : List Landmark)
    (hl : 0 < getHeight lPts) (hr : 0 < getHeight rPts) :
    calculateSymmetry lPts rPts =
      .num ((⌊min (getHeight lPts) (getHeight rPts) /
        max (getHeight lPts) (getHeight rPts) * 100⌋ : ℤ) : ℚ) ∧
    0 ≤ ⌊min (getHeight lPts) (getHeight rPts) /
        max (getHeight lPts) (getHeight rPts) * 100⌋ ∧
    ⌊min (getHeight lPts) (getHeight rPts) /
        max (getHeight lPts) (getHeight rPts) * 100⌋ ≤ 100 ∧
    (⌊min (getHeight lPts) (getHeight rPts) /
        max (getHeight lPts) (getHeight rPts) * 100⌋ = 100 ↔
      getHeight lPts = getHeight rPts) := by
  have hmax : 0 < max (getHeight lPts) (getHeight rPts) := lt_max_of_lt_left hl
  have hmin : 0 < min (getHeight lPts) (getHeight rPts) := lt_min hl hr
  have hratio_le : min (getHeight lPts) (getHeight rPts) /
      max (getHeight lPts) (getHeight rPts) ≤ 1 :=
    div_le_one_of_le₀ min_le_max (le_of_lt hmax)
  have hratio_pos : 0 < min (getHeight lPts) (getHeight rPts) /
      max (getHeight lPts) (getHeight rPts) := div_pos hmin hmax
  refine ⟨?_, ?_, ?_, ?_⟩
  · simp only [calculateSymmetry, JSVal.divQ, if_neg (ne_of_gt hmax),
      JSVal.mul, JSVal.floor]
  · exact Int.floor_nonneg.mpr (by positivity)
  · have h100 : min (getHeight lPts) (getHeight rPts) /
        max (getHeight lPts) (getHeight rPts) * 100 ≤ 100 := by nlinarith
    have := Int.floor_le_floor h100
    simpa using this
  · constructor
    · intro h
      have hge : (100 : ℚ) ≤ min (getHeight lPts) (getHeight rPts) /
          max (getHeight lPts) (getHeight rPts) * 100 := by
        have := Int.le_floor.mp h.ge
        exact_mod_cast this
      have hone : min (getHeight lPts) (getHeight rPts) /
          max (getHeight lPts) (getHeight rPts) = 1 := by nlinarith
      field_simp at hone
      exact hone
    · intro h
      rw [h]
      simp only [min_self, max_self]
      rw [div_self (ne_of_gt hr)]
      norm_num

theorem C8_symmetry_bounds_witness :
    0 < getHeight [⟨0, 0, 0⟩, ⟨0, 1/2, 0⟩] ∧
    calculateSymmetry [⟨0, 0, 0⟩, ⟨0, 1/2, 0⟩] [⟨1, 0, 0⟩, ⟨1, 1/2, 0⟩] =
      .num 100 := by
  have hh : getHeight [(⟨0, 0, 0⟩ : Landmark), ⟨0, 1/2, 0⟩] = 1/2 := by
    simp only [getHeight, List.foldl]
    norm_num
  have hh' : getHeight [(⟨1, 0, 0⟩ : Landmark), ⟨1, 1/2, 0⟩] = 1/2 := by
    simp only [getHeight, List.foldl]
    norm_num
  have h := C8_symmetry_bounds [⟨0, 0, 0⟩, ⟨0, 1/2, 0⟩] [⟨1, 0, 0⟩, ⟨1, 1/2, 0⟩]
    (by rw [hh]; norm_num) (by rw [hh']; norm_num)
  refine ⟨by rw [hh]; norm_num, ?_⟩
  rw [h.1, hh, hh']
  norm_num

/-! ## Claim C9 -/

theorem handleMove_no_emit {st : SpiralState} {e : SpiralEvent}
    (h : st.isDrawing = true) (he : ¬ e.dist ≥ MAX_RADIUS - 10) :
    (handleMove st e).2 = none ∧ (handleMove st e).1.isDrawing = true := by
  simp [handleMove, h, he]

theorem runMoves_below (moves : List SpiralEvent) :
    ∀ st : SpiralState, st.isDrawing = true →
    (∀ m ∈ moves, m.dist < MAX_RADIUS - 10) →
    (runMoves st moves).2 = [] ∧ (runMoves st moves).1.isDrawing = true := by
  induction moves with
  | nil =>
    intro st h _
    simp [runMoves, h]
  | cons e rest ih =>
    intro st h hall
    have he : ¬ e.dist ≥ MAX_RADIUS - 10 :=
      not_le.mpr (hall e (List.mem_cons_self e rest))
    have hmv0 := handleMove_no_emit h he
    rcases hmv : handleMove st e with ⟨st1, out⟩
    rw [hmv] at hmv0
    simp only at hmv0
    obtain ⟨rfl, hdr⟩ := hmv0
    obtain ⟨hre, hrd⟩ := ih st1 hdr (fun m hm => hall m (List.mem_cons_of_mem e hm))
    rcases hrr : runMoves st1 rest with ⟨stF, outs⟩
    rw [hrr] at hre hrd
    simp only at hre hrd
    simp only [runMoves, hmv, hrr]
    simpa using ⟨hre, hrd⟩

/-- **C9**: starting a spiral capture inside the start zone and moving
while the distance from center stays below `MAX_RADIUS − 10` never emits a
score; lifting the pointer then (`handleEnd` with a drawing in flight)
discards all accumulated points and per-point errors, resets progress to 0
and stops drawing — the state after the abort equals the freshly-started
(initial) session state. -/
theorem C9_abort_resets (e : SpiralEvent) (moves : List SpiralEvent)
    (hstart : e.dist ≤ START_ZONE_RADIUS)
    (hbelow : ∀ m ∈ moves, m.dist < MAX_RADIUS - 10) :
    (runMoves (handleStart initialSpiralState e) moves).2 = [] ∧
    handleEnd (runMoves (handleStart initialSpiralState e) moves).1 =
      initialSpiralState := by
  have hs : (handleStart initialSpiralState e).isDrawing = true := by
    simp [handleStart, not_lt.mpr hstart]
  obtain ⟨hemit, hdraw⟩ := runMoves_below moves _ hs hbelow
  refine ⟨hemit, ?_⟩
  simp only [handleEnd, hdraw, reduceIte]
  rfl

theorem C9_abort_resets_witness :
    (runMoves (handleStart initialSpiralState ⟨0, 0⟩)
      [⟨50, 3⟩, ⟨100, 4⟩]).2 = [] ∧
    handleEnd (runMoves (handleStart initialSpiralState ⟨0, 0⟩)
      [⟨50, 3⟩, ⟨100, 4⟩]).1 = initialSpiralState :=
  C9_abort_resets ⟨0, 0⟩ [⟨50, 3⟩, ⟨100, 4⟩]
    (by norm_num [START_ZONE_RADIUS])
    (by intro m hm; fin_cases hm <;> norm_num [MAX_RADIUS])

/-! ## Claim C10 -/

/-- **C10**: in test mode the touch composite equals
`floor(0.5·spiral + 0.5·stability)`, capped via `Math.min(·, 59)` exactly
when the stability sub-test reported the resting-tremor issue; a detected
resting tremor therefore forces a touch score strictly below 60, which
makes the aggregator's weakest-link flag (`criticalIssue`) true and forces
the STORM status on every non-failing narrative path. -/
theorem C10_touch_composite (c s : ℚ) (issues : List String)
    (hs : UserHealthState) (outcome : AIOutcome) :
    analyze .TEST c s issues =
      { result := { score := .num (touchTotalScore c s issues), raw := none },
        savedRecord := true } ∧
    touchTotalScore c s issues =
      (if restingTremorTag ∈ issues then min ⌊c * 0.5 + s * 0.5⌋ 59
       else ⌊c * 0.5 + s * 0.5⌋) ∧
    (restingTremorTag ∈ issues →
      touchTotalScore c s issues < 60 ∧
      (hs.touch = some ((touchTotalScore c s issues : ℤ) : ℚ) →
        criticalIssue hs = true ∧
        (outcome ≠ .err → generateHealthReport hs outcome = .STORM))) := by
  have hform : touchTotalScore c s issues =
      (if restingTremorTag ∈ issues then min ⌊c * 0.5 + s * 0.5⌋ 59
       else ⌊c * 0.5 + s * 0.5⌋) := by
    simp only [touchTotalScore, List.elem_iff]
  refine ⟨rfl, hform, ?_⟩
  intro hmem
  have hlt : touchTotalScore c s issues < 60 := by
    rw [hform, if_pos hmem]
    exact lt_of_le_of_lt (min_le_right _ _) (by norm_num)
  refine ⟨hlt, ?_⟩
  intro htouch
  have hmemscore : ((touchTotalScore c s issues : ℤ) : ℚ) ∈ validScores hs := by
    simp [validScores, htouch]
  have hltq : ((touchTotalScore c s issues : ℤ) : ℚ) < 60 := by
    exact_mod_cast hlt
  exact ⟨criticalIssue_of_mem_low hmemscore hltq,
    fun hne => storm_of_mem_low hmemscore hltq hne⟩

theorem C10_touch_composite_witness :
    touchTotalScore 100 0 [restingTremorTag] = 50 ∧
    criticalIssue ⟨none, none, some 50⟩ = true ∧
    generateHealthReport ⟨none, none, some 50⟩ .demo = .STORM := by
  have h := C10_touch_composite 100 0 [restingTremorTag]
    ⟨none, none, some 50⟩ .demo
  have hval : touchTotalScore 100 0 [restingTremorTag] = 50 := by
    rw [h.2.1, if_pos (List.mem_singleton_self _)]
    norm_num
  have h2 := (h.2.2 (List.mem_singleton_self _)).2 (by rw [hval]; norm_num)
  exact ⟨hval, h2.1, h2.2 (by decide)⟩

end BrainGuard
